import Mathlib

/-!
Shallow embedding of the rustables netlink codec and rule model
(repository `rsdsl/rustables`), covering:

* `src/src/parser.rs` — message-header validation (`get_nlmsghdr`,
  `parse_nlmsg`), attribute decoding (`NfNetlinkAttributeReader`),
  attribute encoding (`write_attribute`, `pad_netlink_object_with_variable_size`);
* `src/src/rule.rs` — `PartialEq for Rule`, `Rule::deep_eq`,
  `impl NlMsg for Rule` (message type and flags);
* `src/src/rule_methods.rs` — `Rule::match_port`, `Rule::sport`, `Rule::dport`;
* `src/nftnl/src/expr/verdict.rs` — `Verdict::to_expr`.

Buffers are lists of bytes (`List Nat`, each element < 256 in intended use);
multi-byte integers are read little-endian as on the x86-64 targets the crate
compiles for.  Rust `usize`/`u16`/`u32` arithmetic is `Nat` with explicit
`% 2^w` where a cast truncates; `i32` is `Int` restricted to the i32 range.
Operations that would panic in Rust (slice indexing out of bounds, checked
arithmetic overflow in debug builds, reads past the end of a slice through a
raw pointer) are modelled by a distinguished `panic` outcome, kept separate
from the error returns of the `Result`-typed functions.
-/

namespace Rustables

/-- Decode-time error taxonomy, from `enum DecodeError` in `src/src/parser.rs`.
Only the variants reachable in the functions modelled here are carried. -/
inductive DecodeError where
  | bufTooSmall
  | nlMsgTooSmall
  | invalidSubsystem (subsys : Nat)
  | invalidVersion (version : Nat)
  | concurrentGenerationUpdate
  | unsupportedType (ty : Nat)
  | unsupportedAttributeType (ty : Nat)
  | unexpectedType (ty : Nat)
deriving DecidableEq, Repr

/-- Outcome of running a fallible Rust function that may additionally panic
(out-of-bounds slice index, overflowing arithmetic in a debug build, or an
out-of-bounds raw-pointer read). -/
inductive PResult (α : Type) where
  | ok (a : α)
  | err (e : DecodeError)
  | panic
deriving DecidableEq, Repr

deriving instance DecidableEq for Except

/-- `pad_netlink_object_with_variable_size` from `src/src/parser.rs`:
`(size + 3) & !3`, i.e. clear the two low bits of `size + 3`, which rounds
up to the next multiple of 4. -/
def pad_netlink_object_with_variable_size (size : Nat) : Nat :=
  4 * ((size + 3) / 4)

/-- Little-endian 16-bit read at `off`; the source performs this through a
`*const nlattr` / `*const nlmsghdr` cast and is only reached after a bounds
check, so the default value 0 is never observable on the checked paths. -/
def readU16 (buf : List Nat) (off : Nat) : Nat :=
  buf.getD off 0 + 256 * buf.getD (off + 1) 0

/-- Little-endian 32-bit read at `off`. -/
def readU32 (buf : List Nat) (off : Nat) : Nat :=
  buf.getD off 0 + 256 * buf.getD (off + 1) 0 + 65536 * buf.getD (off + 2) 0 +
    16777216 * buf.getD (off + 3) 0

/-- Little-endian `i32` read at `off` (two's complement). -/
def readI32 (buf : List Nat) (off : Nat) : Int :=
  let v := readU32 buf off % 4294967296
  if v < 2147483648 then (v : Int) else (v : Int) - 4294967296

/-- `struct nlmsghdr` (16 bytes): `{nlmsg_len: u32, nlmsg_type: u16,
nlmsg_flags: u16, nlmsg_seq: u32, nlmsg_pid: u32}`. -/
structure Nlmsghdr where
  nlmsg_len : Nat
  nlmsg_type : Nat
  nlmsg_flags : Nat
  nlmsg_seq : Nat
  nlmsg_pid : Nat
deriving DecidableEq, Repr

/-- Read an `nlmsghdr` at byte offset `off` of `buf`. -/
def readNlmsghdrAt (buf : List Nat) (off : Nat) : Nlmsghdr :=
  { nlmsg_len := readU32 buf off
    nlmsg_type := readU16 buf (off + 4)
    nlmsg_flags := readU16 buf (off + 6)
    nlmsg_seq := readU32 buf (off + 8)
    nlmsg_pid := readU32 buf (off + 12) }

/-- `size_of::<nlmsghdr>()` (= its 4-byte-aligned size). -/
def sizeOfNlmsghdr : Nat := 16

/-- `NLM_F_DUMP_INTR` flag bit. -/
def NLM_F_DUMP_INTR : Nat := 16

/-- `get_nlmsghdr` from `src/src/parser.rs`: header-size check, declared
length check, then the dump-interrupted flag check. -/
def get_nlmsghdr (buf : List Nat) : Except DecodeError Nlmsghdr :=
  if buf.length < sizeOfNlmsghdr then .error .bufTooSmall
  else
    let hdr := readNlmsghdrAt buf 0
    if hdr.nlmsg_len > buf.length ∨ hdr.nlmsg_len < sizeOfNlmsghdr then
      .error .nlMsgTooSmall
    else if hdr.nlmsg_flags &&& NLM_F_DUMP_INTR ≠ 0 then
      .error .concurrentGenerationUpdate
    else .ok hdr

/-- `struct Nfgenmsg` from `src/src/parser.rs`: `{family: u8, version: u8,
res_id: u16}`. -/
structure Nfgenmsg where
  family : Nat
  version : Nat
  res_id : Nat
deriving DecidableEq, Repr

/-- `struct nlmsgerr`: `{error: i32, msg: nlmsghdr}`. -/
structure Nlmsgerr where
  error : Int
  msg : Nlmsghdr
deriving DecidableEq, Repr

/-- `enum NlMsg` from `src/src/parser.rs`. -/
inductive NlMsg where
  | done
  | noop
  | error (e : Nlmsgerr)
  | nfGenMsg (g : Nfgenmsg) (raw : List Nat)
deriving DecidableEq, Repr

/-- `NLMSG_MIN_TYPE` (0x10). -/
def NLMSG_MIN_TYPE : Nat := 16

/-- `NFNL_SUBSYS_NFTABLES`. -/
def NFNL_SUBSYS_NFTABLES : Nat := 10

/-- `get_subsystem_from_nlmsghdr_type`: `((x & 0xff00) >> 8) as u8`. -/
def get_subsystem_from_nlmsghdr_type (x : Nat) : Nat :=
  (x &&& 0xff00) >>> 8

/-- `parse_nlmsg` from `src/src/parser.rs`.  `err.error.abs()` overflows for
`i32::MIN` (panic in debug builds; release wrapping leaves the value
negative), modelled as `panic`. -/
def parse_nlmsg (buf : List Nat) : PResult (Nlmsghdr × NlMsg) :=
  match get_nlmsghdr buf with
  | .error e => .err e
  | .ok hdr =>
    -- size_of_hdr = pad_netlink_object::<nlmsghdr>() = 16
    if hdr.nlmsg_type < NLMSG_MIN_TYPE then
      match hdr.nlmsg_type with
      | 1 => .ok (hdr, .noop)   -- NLMSG_NOOP
      | 2 =>                    -- NLMSG_ERROR
        if hdr.nlmsg_len > buf.length ∨ hdr.nlmsg_len < 16 + 20 then
          .err .nlMsgTooSmall
        else
          let e := readI32 buf 16
          if e = -2147483648 then .panic
          else .ok (hdr, .error { error := |e|, msg := readNlmsghdrAt buf 20 })
      | 3 => .ok (hdr, .done)   -- NLMSG_DONE
      | x => .err (.unsupportedType x)
    else
      let subsys := get_subsystem_from_nlmsghdr_type hdr.nlmsg_type
      if subsys ≠ NFNL_SUBSYS_NFTABLES then .err (.invalidSubsystem subsys)
      else
        -- size_of_nfgenmsg = pad_netlink_object::<Nfgenmsg>() = 4
        if hdr.nlmsg_len > buf.length ∨ hdr.nlmsg_len < 16 + 4 then
          .err .nlMsgTooSmall
        else
          let g : Nfgenmsg :=
            { family := buf.getD 16 0, version := buf.getD 17 0
              res_id := readU16 buf 18 }
          -- the source recomputes and re-checks the subsystem here
          if subsys ≠ NFNL_SUBSYS_NFTABLES then .err (.invalidSubsystem subsys)
          else if g.version ≠ 0 then .err (.invalidVersion g.version)
          else .ok (hdr, .nfGenMsg g ((buf.drop 20).take (hdr.nlmsg_len - 20)))

/-! ### Attribute decoding (`NfNetlinkAttributeReader`) -/

/-- `pad_netlink_object::<nlattr>()`: `nlattr` is `{nla_len: u16, nla_type: u16}`,
4 bytes, already aligned. -/
def padNlattr : Nat := 4

/-- `NLA_TYPE_MASK` (= `!(NLA_F_NESTED | NLA_F_NET_BYTEORDER)`, low 14 bits). -/
def NLA_TYPE_MASK : Nat := 0x3fff

/-- The loop body of `NfNetlinkAttributeReader::decode` from `src/src/parser.rs`,
parameterized by the caller's `T::decode_attribute`.  Panics modelled:

* reading the 4-byte `nlattr` header through a raw pointer when fewer than 4
  bytes of `buf` remain at `pos` (an out-of-bounds read in the source);
* `nlattr.nla_len as usize - pad_netlink_object::<nlattr>()` when
  `nla_len < 4` (usize underflow);
* the slice `self.buf[self.pos..self.pos + attr_remaining_size]` when its end
  lies past the end of `buf`;
* `self.remaining_size -= pad_netlink_object_with_variable_size(nla_len)`
  when the subtrahend exceeds `remaining_size` (usize underflow). -/
def decodeLoop (decAttr : Nat → List Nat → Except DecodeError α) (buf : List Nat) :
    Nat → Nat → List (Nat × α) → PResult (List (Nat × α))
  | pos, remaining, attrs =>
    if h : remaining ≤ padNlattr then .ok attrs
    else
      if pos + 4 > buf.length then .panic
      else
        let nla_len := readU16 buf pos
        let nla_type := readU16 buf (pos + 2)
        let tyMasked := nla_type &&& NLA_TYPE_MASK
        if nla_len < padNlattr then .panic
        else
          let pos' := pos + padNlattr
          let attr_remaining_size := nla_len - padNlattr
          if pos' + attr_remaining_size > buf.length then .panic
          else
            match decAttr tyMasked ((buf.drop pos').take attr_remaining_size) with
            | .error e => .err e
            | .ok a =>
              let pos'' := pos' + pad_netlink_object_with_variable_size attr_remaining_size
              if h2 : pad_netlink_object_with_variable_size nla_len > remaining then .panic
              else
                decodeLoop decAttr buf pos''
                  (remaining - pad_netlink_object_with_variable_size nla_len)
                  (attrs ++ [(tyMasked, a)])
  termination_by pos remaining attrs => remaining
  decreasing_by
    simp only [pad_netlink_object_with_variable_size, padNlattr] at *
    omega

/-- `NfNetlinkAttributeReader::new` followed by `decode`: `new` checks
`buf.len() < remaining_size` and returns `BufTooSmall`; `decode` then runs the
attribute loop starting at position 0 with an empty attribute set. -/
def attributeReaderDecode (decAttr : Nat → List Nat → Except DecodeError α)
    (buf : List Nat) (remaining_size : Nat) : PResult (List (Nat × α)) :=
  if buf.length < remaining_size then .err .bufTooSmall
  else decodeLoop decAttr buf 0 remaining_size []

/-! ### Attribute encoding (`write_attribute`) -/

/-- Encode a `u16` value little-endian, as the in-memory layout of the
`nla_len`/`nla_type` fields of `libc::nlattr`. -/
def u16le (v : Nat) : List Nat := [v % 256, v / 256 % 256]

/-- Overwrite `out` with `data` starting at offset `off` (models
`ptr::copy_nonoverlapping` into the chunk returned by the writer). -/
def writeAt (out : List Nat) (off : Nat) (data : List Nat) : List Nat :=
  out.take off ++ data ++ out.drop (off + data.length)

/-- Modelled from the spec: `NfNetlinkWriter::add_data_zeroed`
(`src/nlmsg.rs` is not among the provided sources; only its caller
`write_attribute` is).  Per spec §4.1 an attribute is a 4-byte header
"followed by payload padded up to the next 4-byte boundary", so the writer
appends a zeroed chunk whose size is the requested size rounded up to a
4-byte boundary and hands back its start offset. -/
def add_data_zeroed (out : List Nat) (size : Nat) : List Nat × Nat :=
  (out ++ List.replicate (pad_netlink_object_with_variable_size size) 0, out.length)

/-- `write_attribute` from `src/src/parser.rs`, with the attribute
represented by its payload bytes (`payload.length = obj.get_size()`).  The
header is `nla_len = (header_len + obj.get_size()) as u16` (header size plus
the unpadded payload size, truncated by the `u16` cast) and `nla_type = ty`;
header and payload are copied into chunks obtained from `add_data_zeroed`. -/
def write_attribute (ty : Nat) (payload : List Nat) (out : List Nat) : List Nat :=
  let p1 := add_data_zeroed out 4
  let out1 := writeAt p1.1 p1.2 (u16le ((4 + payload.length) % 65536) ++ u16le (ty % 65536))
  let p2 := add_data_zeroed out1 payload.length
  writeAt p2.1 p2.2 payload

/-! ### `src/src/rule.rs`: `Rule`, `PartialEq`, `deep_eq`, `NlMsg::write` -/

/-- Modelled from the spec: the `Chain` identity a `Rule` refers to
(`src/chain.rs` is not among the provided sources; `Rule::eq` only compares
chains through `Chain`'s own equality).  Per spec §3/§9 the back-reference
identifies the chain by name together with its table's name and family. -/
structure Chain where
  table : String
  name : String
  family : Nat
deriving DecidableEq, Repr

/-- A `Rule` of `src/src/rule.rs`: the `Rc<Chain>` back-reference, the
optional kernel-assigned handle and position (`nftnl_rule_is_set` ↔ `isSome`;
`nftnl_rule_get_u64` is only reached when set), and the sequence of its
expressions, each represented by its `nftnl_expr_snprintf` textual rendering
(the only view of an expression that `deep_eq` inspects). -/
structure Rule where
  chain : Chain
  handle : Option Nat
  position : Option Nat
  exprs : List String
deriving DecidableEq, Repr

/-- `<Rule as PartialEq>::eq` from `src/src/rule.rs`: chains compared first;
a handle comparison only when both sides have one set; a position comparison
only when both sides have one set; and the function ends in an unconditional
`return false`. -/
def Rule.eq (a b : Rule) : Bool :=
  if a.chain ≠ b.chain then false
  else
    if a.handle.isSome ∧ b.handle.isSome ∧ a.handle ≠ b.handle then false
    else
      if a.position.isSome ∧ b.position.isSome ∧ a.position ≠ b.position then false
      else false

/-- The expression-comparison loop of `Rule::deep_eq`: advance both iterators
in lockstep; both exhausted → `true`; exactly one exhausted → `false`;
otherwise compare the two textual renderings and continue. -/
def exprStrsEq : List String → List String → Bool
  | [], [] => true
  | [], _ :: _ => false
  | _ :: _, [] => false
  | x :: xs, y :: ys => if x ≠ y then false else exprStrsEq xs ys

/-- `Rule::deep_eq` from `src/src/rule.rs`: first `if self != other { return
false; }` (i.e. the `PartialEq` gate), then the pairwise rendering loop. -/
def Rule.deep_eq (a b : Rule) : Bool :=
  if ¬ Rule.eq a b then false
  else exprStrsEq a.exprs b.exprs

/-- `enum MsgType` (`Add`/`Del`). -/
inductive MsgType where
  | add
  | del
deriving DecidableEq, Repr

/-- `NFT_MSG_NEWRULE`. -/
def NFT_MSG_NEWRULE : Nat := 6

/-- `NFT_MSG_DELRULE`. -/
def NFT_MSG_DELRULE : Nat := 8

/-- `NLM_F_CREATE`. -/
def NLM_F_CREATE : Nat := 0x400

/-- `NLM_F_APPEND`. -/
def NLM_F_APPEND : Nat := 0x800

/-- `NLM_F_EXCL`. -/
def NLM_F_EXCL : Nat := 0x200

/-- `NLM_F_ACK`. -/
def NLM_F_ACK : Nat := 0x4

/-- The `type_` computed by `<Rule as NlMsg>::write` in `src/src/rule.rs`.
The `&self` receiver is kept to show the value depends on the operation
alone. -/
def Rule.writeMsgType (_self : Rule) : MsgType → Nat
  | .add => NFT_MSG_NEWRULE
  | .del => NFT_MSG_DELRULE

/-- The `flags` computed by `<Rule as NlMsg>::write`:
`match { Add => (NLM_F_CREATE | NLM_F_APPEND | NLM_F_EXCL) as u16, Del => 0u16 }
| NLM_F_ACK as u16`. -/
def Rule.writeFlags (_self : Rule) : MsgType → Nat
  | .add => (NLM_F_CREATE ||| NLM_F_APPEND ||| NLM_F_EXCL) ||| NLM_F_ACK
  | .del => 0 ||| NLM_F_ACK

/-! ### `src/src/rule_methods.rs`: port-matching rule builders -/

/-- `enum Protocol` from `src/src/rule_methods.rs`. -/
inductive Protocol where
  | tcp
  | udp
deriving DecidableEq, Repr

/-- `MetaType` variants used by the builders modelled here. -/
inductive MetaType where
  | l4proto
deriving DecidableEq, Repr

/-- `CmpOp` variants used by the builders modelled here. -/
inductive CmpOp where
  | eq
deriving DecidableEq, Repr

/-- The transport-header field selectors `TCPHeaderField::{Sport, Dport}` and
`UDPHeaderField::{Sport, Dport}` used inside `Rule::match_port`. -/
inductive TransportField where
  | tcpSport
  | tcpDport
  | udpSport
  | udpDport
deriving DecidableEq, Repr

/-- The expressions a `rule_methods.rs` port-matching builder appends:
`Meta::new`, `Cmp::new`, and `HighLevelPayload::Transport(..).build()`. -/
inductive RuleExpr where
  | meta (ty : MetaType)
  | cmp (op : CmpOp) (data : List Nat)
  | payloadTransport (field : TransportField)
deriving DecidableEq, Repr

/-- The builder-side `Rule` of `src/src/rule_methods.rs`, reduced to its
ordered expression list (`add_expr` appends). -/
structure BuilderRule where
  exprs : List RuleExpr
deriving DecidableEq, Repr

/-- `Rule::add_expr` (append). -/
def BuilderRule.add_expr (r : BuilderRule) (e : RuleExpr) : BuilderRule :=
  { exprs := r.exprs ++ [e] }

/-- `IPPROTO_TCP`. -/
def IPPROTO_TCP : Nat := 6

/-- `IPPROTO_UDP`. -/
def IPPROTO_UDP : Nat := 17

/-- `u16::to_be_bytes`. -/
def u16be (v : Nat) : List Nat := [v / 256 % 256, v % 256]

/-- `Rule::protocol` from `src/src/rule_methods.rs`: a `Meta(L4Proto)` load
followed by an equality comparison against the protocol number. -/
def BuilderRule.protocol (r : BuilderRule) (p : Protocol) : BuilderRule :=
  (r.add_expr (.meta .l4proto)).add_expr
    (.cmp .eq [match p with | .tcp => IPPROTO_TCP | .udp => IPPROTO_UDP])

/-- `Rule::match_port` from `src/src/rule_methods.rs`: `protocol`, then a
transport-header payload load of the Sport/Dport field selected by `source`,
then `Cmp::new(CmpOp::Eq, port.to_be_bytes())`. -/
def BuilderRule.match_port (r : BuilderRule) (port : Nat) (p : Protocol)
    (source : Bool) : BuilderRule :=
  let r := r.protocol p
  let r := r.add_expr (.payloadTransport
    (match p with
     | .tcp => if source then .tcpSport else .tcpDport
     | .udp => if source then .udpSport else .udpDport))
  r.add_expr (.cmp .eq (u16be port))

/-- `Rule::sport` from `src/src/rule_methods.rs`:
`self.match_port(port, protocol, false)`. -/
def BuilderRule.sport (r : BuilderRule) (port : Nat) (p : Protocol) : BuilderRule :=
  r.match_port port p false

/-- `Rule::dport` from `src/src/rule_methods.rs`:
`self.match_port(port, protocol, false)`. -/
def BuilderRule.dport (r : BuilderRule) (port : Nat) (p : Protocol) : BuilderRule :=
  r.match_port port p false

/-! ### `src/nftnl/src/expr/verdict.rs`: `Verdict::to_expr` -/

/-- `enum Verdict`. -/
inductive Verdict where
  | drop
  | accept
  | reject
  | queue
  | cont
  | brk
  | jump (chain : String)
  | goto (chain : String)
  | ret
deriving DecidableEq, Repr

/-- `NF_DROP`. -/
def NF_DROP : Int := 0

/-- `NF_ACCEPT`. -/
def NF_ACCEPT : Int := 1

/-- `NF_QUEUE`. -/
def NF_QUEUE : Int := 3

/-- `NFT_CONTINUE`. -/
def NFT_CONTINUE : Int := -1

/-- `NFT_BREAK`. -/
def NFT_BREAK : Int := -2

/-- `NFT_JUMP`. -/
def NFT_JUMP : Int := -3

/-- `NFT_GOTO`. -/
def NFT_GOTO : Int := -4

/-- `NFT_RETURN`. -/
def NFT_RETURN : Int := -5

/-- `NFT_REG_VERDICT`. -/
def NFT_REG_VERDICT : Nat := 0

/-- `NFT_REJECT_ICMPX_UNREACH` (`enum nft_reject_types`). -/
def NFT_REJECT_ICMPX_UNREACH : Nat := 2

/-- `NFT_REJECT_ICMPX_HOST_UNREACH` (`enum nft_reject_inet_code`). -/
def NFT_REJECT_ICMPX_HOST_UNREACH : Nat := 2

/-- `Verdict::immediate_const` from `src/nftnl/src/expr/verdict.rs`; the
wildcard arm (`Reject`) yields `None`. -/
def Verdict.immediate_const : Verdict → Option Int
  | .drop => some NF_DROP
  | .accept => some NF_ACCEPT
  | .queue => some NF_QUEUE
  | .cont => some NFT_CONTINUE
  | .brk => some NFT_BREAK
  | .jump _ => some NFT_JUMP
  | .goto _ => some NFT_GOTO
  | .ret => some NFT_RETURN
  | .reject => none

/-- `Verdict::chain`: the target chain name for `Jump`/`Goto`, `None`
otherwise. -/
def Verdict.chainName : Verdict → Option String
  | .jump c => some c
  | .goto c => some c
  | _ => none

/-- The `immediate` wire expression built by `Verdict::immediate_to_expr`:
`NFTNL_EXPR_IMM_DREG`, the optional `NFTNL_EXPR_IMM_CHAIN` string attribute,
and `NFTNL_EXPR_IMM_VERDICT` (the `i32` code cast to `u32`). -/
structure ImmediateExpr where
  dreg : Nat
  chain : Option String
  verdict : Nat
deriving DecidableEq, Repr

/-- The `reject` wire expression: `NFTNL_EXPR_REJECT_TYPE` and
`NFTNL_EXPR_REJECT_CODE`. -/
structure RejectExpr where
  rejectType : Nat
  icmpCode : Nat
deriving DecidableEq, Repr

/-- The wire expression produced by `Verdict::to_expr`. -/
inductive VerdictExpr where
  | immediate (e : ImmediateExpr)
  | reject (e : RejectExpr)
deriving DecidableEq, Repr

/-- `immediate_const as u32` (two's-complement truncating cast). -/
def i32AsU32 (v : Int) : Nat := (v % 4294967296).toNat

/-- `Verdict::to_expr` from `src/nftnl/src/expr/verdict.rs`: the immediate
path whenever `immediate_const` is `Some`, otherwise (only `Reject`) the
reject expression with `NFT_REJECT_ICMPX_UNREACH` and
`NFT_REJECT_ICMPX_HOST_UNREACH`. -/
def Verdict.to_expr (v : Verdict) : VerdictExpr :=
  match v.immediate_const with
  | some k =>
    .immediate { dreg := NFT_REG_VERDICT, chain := v.chainName, verdict := i32AsU32 k }
  | none =>
    .reject { rejectType := NFT_REJECT_ICMPX_UNREACH
              icmpCode := NFT_REJECT_ICMPX_HOST_UNREACH }

/-- A concrete 36-byte `NLMSG_ERROR` wire message (`nlmsg_len = 36`,
`nlmsg_type = 2`) whose embedded i32 error value is −2
(bytes `[0xfe, 0xff, 0xff, 0xff]`), followed by a zeroed inner header. -/
def errNeg2Buf : List Nat :=
  [36, 0, 0, 0, 2, 0, 0, 0, 0, 0, 0, 0, 0, 0, 0, 0]
    ++ [254, 255, 255, 255] ++ List.replicate 16 0

/-! ## Helper lemmas -/

theorem pad_ge (size : Nat) : size ≤ pad_netlink_object_with_variable_size size := by
  unfold pad_netlink_object_with_variable_size
  omega

theorem pad_mul_ceil (size : Nat) :
    4 + pad_netlink_object_with_variable_size size = 4 * ((4 + size + 3) / 4) := by
  unfold pad_netlink_object_with_variable_size
  omega

theorem writeAt_into_padding (out data : List Nat) (n : Nat) (h : data.length ≤ n) :
    writeAt (out ++ List.replicate n 0) out.length data
      = out ++ data ++ List.replicate (n - data.length) 0 := by
  unfold writeAt
  rw [List.take_left, ← List.drop_drop, List.drop_left, List.drop_replicate,
    List.append_assoc]

theorem write_attribute_eq (ty : Nat) (payload out : List Nat) :
    write_attribute ty payload out
      = out ++ (u16le ((4 + payload.length) % 65536) ++ u16le (ty % 65536))
          ++ (payload ++ List.replicate
              (pad_netlink_object_with_variable_size payload.length - payload.length) 0) := by
  have h4 : (u16le ((4 + payload.length) % 65536) ++ u16le (ty % 65536)).length = 4 := by
    simp [u16le]
  simp only [write_attribute, add_data_zeroed]
  rw [show pad_netlink_object_with_variable_size 4 = 4 from by decide]
  rw [writeAt_into_padding out _ 4 (le_of_eq h4), h4, Nat.sub_self, List.replicate_zero,
    List.append_nil]
  rw [writeAt_into_padding _ payload _ (pad_ge payload.length)]
  rw [List.append_assoc]

theorem write_attribute_length (ty : Nat) (payload out : List Nat) :
    (write_attribute ty payload out).length
      = out.length + (4 + pad_netlink_object_with_variable_size payload.length) := by
  rw [write_attribute_eq]
  have hle := pad_ge payload.length
  simp [u16le]
  omega

theorem readU16_append_right (out l : List Nat) :
    readU16 (out ++ l) out.length = readU16 l 0 := by
  unfold readU16
  rw [List.getD_append_right _ _ _ _ (Nat.le_refl _),
    List.getD_append_right _ _ _ _ (Nat.le_succ_of_le (Nat.le_refl _))]
  simp

theorem write_attribute_len_field (ty : Nat) (payload out : List Nat) :
    readU16 (write_attribute ty payload out) out.length = (4 + payload.length) % 65536 := by
  rw [write_attribute_eq, List.append_assoc, readU16_append_right]
  simp only [u16le, List.cons_append, readU16, List.getD_cons_zero, List.getD_cons_succ]
  omega

/-! ## Claim theorems -/

/-- C1 (counterexample): the claim "two Rules with the same chain and equal,
set handles and positions compare equal" is false — here both sides have the
same chain, handle `some 5` and position `some 7`, yet `Rule::eq` returns
`false`. -/
theorem rule_eq_identical_set_handles_counterexample :
    Rule.eq ⟨⟨"filter", "input", 1⟩, some 5, some 7, []⟩
      ⟨⟨"filter", "input", 1⟩, some 5, some 7, []⟩ = false := by
  decide

/-- C1 (amended): `<Rule as PartialEq>::eq` compares chain identity first and
short-circuits to `false` on differing chains or on differing set handles or
positions, but the function body ends in an unconditional `return false`, so
equality returns `false` for every pair of rules — including rules with the
same chain and equal, set handles and positions. -/
theorem rule_eq_never_true (a b : Rule) : Rule.eq a b = false := by
  unfold Rule.eq
  split
  · rfl
  · split
    · rfl
    · split
      · rfl
      · rfl

/-- C2 (code bug): `Rule::deep_eq` is documented to compare the two rules'
expression renderings pairwise and return `true` for identical expression
sequences, but its opening guard `if self != other { return false; }` invokes
the `PartialEq` implementation, which never returns `true`; consequently
`deep_eq` returns `false` even for one and the same rule, whose pairwise
expression comparison (the loop modelled by `exprStrsEq`) succeeds. -/
theorem deep_eq_false_on_identical_rules :
    exprStrsEq ["immediate reg 0 accept"] ["immediate reg 0 accept"] = true ∧
    Rule.deep_eq ⟨⟨"filter", "input", 1⟩, none, none, ["immediate reg 0 accept"]⟩
      ⟨⟨"filter", "input", 1⟩, none, none, ["immediate reg 0 accept"]⟩ = false := by
  constructor
  · decide
  · decide

/-- C7 (counterexample): the claim "the encoded nla_len length field equals
the attribute header size plus the unpadded payload size" fails for a payload
of 65532 bytes: `(header_len + obj.get_size()) as u16` truncates
4 + 65532 = 65536 to 0. -/
theorem write_attribute_len_field_wraps_counterexample :
    readU16 (write_attribute 0 (List.replicate 65532 0) []) 0
      ≠ 4 + (List.replicate 65532 (0 : Nat)).length := by
  have h := write_attribute_len_field 0 (List.replicate 65532 0) []
  simp only [List.length_nil, List.length_replicate] at h
  rw [h, List.length_replicate]
  omega

/-- C7 (amended): for every attribute written by `write_attribute`, the
encoded `nla_len` field equals the attribute header size (4) plus the
unpadded payload size, truncated by the `u16` cast (so exactly
`4 + payload_len` whenever that sum fits in 16 bits); the attribute occupies
`4 * ceil((4 + payload_len) / 4)` bytes of output (the header-plus-payload
size rounded up to the next 4-byte boundary, `(size + 3) & !3`); the writer
appends, and a second attribute written immediately after starts — its own
`nla_len` field is found — at exactly that offset. -/
theorem write_attribute_layout (ty : Nat) (payload : List Nat) (out : List Nat)
    (ty2 : Nat) (payload2 : List Nat) :
    write_attribute ty payload out = out ++ write_attribute ty payload [] ∧
    (write_attribute ty payload out).length
      = out.length + 4 * ((4 + payload.length + 3) / 4) ∧
    readU16 (write_attribute ty payload out) out.length
      = (4 + payload.length) % 65536 ∧
    readU16 (write_attribute ty2 payload2 (write_attribute ty payload out))
        (out.length + 4 * ((4 + payload.length + 3) / 4))
      = (4 + payload2.length) % 65536 := by
  refine ⟨?_, ?_, write_attribute_len_field ty payload out, ?_⟩
  · rw [write_attribute_eq, write_attribute_eq ty payload []]
    simp
  · rw [write_attribute_length, pad_mul_ceil, Nat.add_assoc]
  · have hlen : out.length + 4 * ((4 + payload.length + 3) / 4)
        = (write_attribute ty payload out).length := by
      rw [write_attribute_length, pad_mul_ceil, Nat.add_assoc]
    rw [hlen, write_attribute_len_field]

/-- C8: `<Rule as NlMsg>::write` computes the message type and flags from the
operation alone (the rule itself does not influence them): `Add` yields
`NFT_MSG_NEWRULE` with `NLM_F_CREATE`, `NLM_F_APPEND`, `NLM_F_EXCL` and
`NLM_F_ACK` all set and nothing else; `Del` yields `NFT_MSG_DELRULE` with
exactly `NLM_F_ACK`. -/
theorem rule_write_type_and_flags (r r' : Rule) :
    (∀ m : MsgType, Rule.writeMsgType r m = Rule.writeMsgType r' m ∧
      Rule.writeFlags r m = Rule.writeFlags r' m) ∧
    Rule.writeMsgType r .add = NFT_MSG_NEWRULE ∧
    Rule.writeFlags r .add = (NLM_F_CREATE ||| NLM_F_APPEND ||| NLM_F_EXCL ||| NLM_F_ACK) ∧
    Rule.writeFlags r .add &&& NLM_F_CREATE ≠ 0 ∧
    Rule.writeFlags r .add &&& NLM_F_APPEND ≠ 0 ∧
    Rule.writeFlags r .add &&& NLM_F_EXCL ≠ 0 ∧
    Rule.writeFlags r .add &&& NLM_F_ACK ≠ 0 ∧
    Rule.writeMsgType r .del = NFT_MSG_DELRULE ∧
    Rule.writeFlags r .del = NLM_F_ACK ∧
    Rule.writeFlags r .del &&& (NLM_F_CREATE ||| NLM_F_APPEND ||| NLM_F_EXCL) = 0 := by
  constructor
  · intro m
    cases m <;> exact ⟨rfl, rfl⟩
  · simp only [Rule.writeMsgType, Rule.writeFlags]
    decide

/-- C3 (code bug): `NfNetlinkAttributeReader::decode` performs no bounds
check of its own on a declared attribute length.  First conjunct: an
attribute declaring `nla_len = 2` (smaller than the 4-byte attribute header)
drives `nla_len as usize - pad_netlink_object::<nlattr>()` into usize
underflow — a panic, not the `BufTooSmall` error the claim requires.  Second
conjunct: an attribute declaring `nla_len = 12` against a remaining-size
budget of 8 makes `decode` slice payload bytes 4..12 — past the declared
budget — and then underflow `remaining_size -= 12`, again a panic rather
than `BufTooSmall`.  (`NfNetlinkAttributeReader::new` is part of both runs
and its `buf.len() < remaining_size` check passes.) -/
theorem decode_panics_on_bad_nla_len :
    attributeReaderDecode (fun t b => .ok (t, b)) [2, 0, 0, 0, 0, 0, 0, 0] 8 = .panic ∧
    attributeReaderDecode (fun t b => .ok (t, b))
      [12, 0, 0, 0, 1, 2, 3, 4, 5, 6, 7, 8] 8 = .panic := by
  constructor <;>
    · unfold attributeReaderDecode
      rw [decodeLoop]
      norm_num [readU16, padNlattr, pad_netlink_object_with_variable_size, NLA_TYPE_MASK]

/-- C4: message-header validation.  A buffer shorter than an `nlmsghdr`
fails with `BufTooSmall`; a header whose `nlmsg_len` exceeds the buffer
length or is smaller than the header size fails with `NlMsgTooSmall`; a
non-control message (type ≥ `NLMSG_MIN_TYPE`) whose subsystem byte is not
`NFNL_SUBSYS_NFTABLES` fails with `InvalidSubsystem`; and when the subsystem
is nftables and the length checks pass, a nonzero `Nfgenmsg` version byte
(byte 17) fails with `InvalidVersion`. -/
theorem header_validation_errors (buf : List Nat) (hdr : Nlmsghdr) :
    (buf.length < sizeOfNlmsghdr → get_nlmsghdr buf = .error .bufTooSmall) ∧
    (sizeOfNlmsghdr ≤ buf.length → hdr = readNlmsghdrAt buf 0 →
      (hdr.nlmsg_len > buf.length ∨ hdr.nlmsg_len < sizeOfNlmsghdr) →
      get_nlmsghdr buf = .error .nlMsgTooSmall) ∧
    (get_nlmsghdr buf = .ok hdr → NLMSG_MIN_TYPE ≤ hdr.nlmsg_type →
      get_subsystem_from_nlmsghdr_type hdr.nlmsg_type ≠ NFNL_SUBSYS_NFTABLES →
      parse_nlmsg buf
        = .err (.invalidSubsystem (get_subsystem_from_nlmsghdr_type hdr.nlmsg_type))) ∧
    (get_nlmsghdr buf = .ok hdr → NLMSG_MIN_TYPE ≤ hdr.nlmsg_type →
      get_subsystem_from_nlmsghdr_type hdr.nlmsg_type = NFNL_SUBSYS_NFTABLES →
      ¬(hdr.nlmsg_len > buf.length ∨ hdr.nlmsg_len < 16 + 4) →
      buf.getD 17 0 ≠ 0 →
      parse_nlmsg buf = .err (.invalidVersion (buf.getD 17 0))) := by
  refine ⟨fun h => ?_, fun h1 hh hbad => ?_, fun hok hty hsub => ?_,
    fun hok hty hsub hsz hver => ?_⟩
  · unfold get_nlmsghdr
    rw [if_pos h]
  · unfold get_nlmsghdr
    rw [if_neg (Nat.not_lt.2 h1), ← hh, if_pos hbad]
  · unfold parse_nlmsg
    rw [hok]
    simp only [Nat.not_lt.2 hty, if_neg, if_false]
    rw [if_pos hsub]
  · unfold parse_nlmsg
    rw [hok]
    simp only [Nat.not_lt.2 hty, if_neg, if_false]
    rw [if_neg (by simp [hsub]), if_neg hsz, if_neg (by simp [hsub]), if_pos hver]

/-- C4 witness: the four error paths at concrete buffers — an empty buffer;
a 16-byte buffer declaring `nlmsg_len = 17`; a 16-byte message of type
`0xb00` (subsystem 11 ≠ nftables); and a 20-byte nftables message whose
`Nfgenmsg` version byte is 5. -/
theorem header_validation_errors_witness :
    get_nlmsghdr [] = .error .bufTooSmall ∧
    get_nlmsghdr [17, 0, 0, 0, 0, 0, 0, 0, 0, 0, 0, 0, 0, 0, 0, 0]
      = .error .nlMsgTooSmall ∧
    parse_nlmsg [16, 0, 0, 0, 0, 11, 0, 0, 0, 0, 0, 0, 0, 0, 0, 0]
      = .err (.invalidSubsystem 11) ∧
    parse_nlmsg [20, 0, 0, 0, 0, 10, 0, 0, 0, 0, 0, 0, 0, 0, 0, 0, 2, 5, 0, 0]
      = .err (.invalidVersion 5) := by
  refine ⟨(header_validation_errors [] ⟨0, 0, 0, 0, 0⟩).1 (by decide),
    (header_validation_errors [17, 0, 0, 0, 0, 0, 0, 0, 0, 0, 0, 0, 0, 0, 0, 0]
        (readNlmsghdrAt [17, 0, 0, 0, 0, 0, 0, 0, 0, 0, 0, 0, 0, 0, 0, 0] 0)).2.1
      (by decide) rfl (by decide),
    (header_validation_errors [16, 0, 0, 0, 0, 11, 0, 0, 0, 0, 0, 0, 0, 0, 0, 0]
        (readNlmsghdrAt [16, 0, 0, 0, 0, 11, 0, 0, 0, 0, 0, 0, 0, 0, 0, 0] 0)).2.2.1
      (by decide) (by decide) (by decide),
    (header_validation_errors [20, 0, 0, 0, 0, 10, 0, 0, 0, 0, 0, 0, 0, 0, 0, 0, 2, 5, 0, 0]
        (readNlmsghdrAt [20, 0, 0, 0, 0, 10, 0, 0, 0, 0, 0, 0, 0, 0, 0, 0, 2, 5, 0, 0] 0)).2.2.2
      (by decide) (by decide) (by decide) (by decide) (by decide)⟩

/-- C5: when the two size checks of `get_nlmsghdr` pass and the header's
flags carry `NLM_F_DUMP_INTR`, both `get_nlmsghdr` and `parse_nlmsg` fail
with exactly `ConcurrentGenerationUpdate` — so no attribute set, partial or
otherwise, is produced, and the condition is never reported as
`BufTooSmall`, `NlMsgTooSmall`, or any other decode error. -/
theorem dump_intr_yields_concurrent_generation_update (buf : List Nat)
    (h1 : sizeOfNlmsghdr ≤ buf.length)
    (h2 : ¬((readNlmsghdrAt buf 0).nlmsg_len > buf.length ∨
      (readNlmsghdrAt buf 0).nlmsg_len < sizeOfNlmsghdr))
    (h3 : (readNlmsghdrAt buf 0).nlmsg_flags &&& NLM_F_DUMP_INTR ≠ 0) :
    get_nlmsghdr buf = .error .concurrentGenerationUpdate ∧
    parse_nlmsg buf = .err .concurrentGenerationUpdate := by
  have hget : get_nlmsghdr buf = .error .concurrentGenerationUpdate := by
    unfold get_nlmsghdr
    rw [if_neg (Nat.not_lt.2 h1), if_neg h2, if_pos h3]
  refine ⟨hget, ?_⟩
  unfold parse_nlmsg
  rw [hget]

/-- C5 witness: a 16-byte header with `nlmsg_len = 16` and flags `0x10`. -/
theorem dump_intr_yields_concurrent_generation_update_witness :
    get_nlmsghdr [16, 0, 0, 0, 0, 0, 16, 0, 0, 0, 0, 0, 0, 0, 0, 0]
      = .error .concurrentGenerationUpdate ∧
    parse_nlmsg [16, 0, 0, 0, 0, 0, 16, 0, 0, 0, 0, 0, 0, 0, 0, 0]
      = .err .concurrentGenerationUpdate :=
  dump_intr_yields_concurrent_generation_update
    [16, 0, 0, 0, 0, 0, 16, 0, 0, 0, 0, 0, 0, 0, 0, 0]
    (by decide) (by decide) (by decide)

/-- C6 (counterexample): the claim "the embedded error field equals the
absolute value of the i32 error value on the wire, and is therefore
non-negative for every possible wire value" fails for the wire value
`i32::MIN` (bytes `[0, 0, 0, 0x80]`): `err.error.abs()` overflows (panics in
a debug build; release wrapping leaves `i32::MIN` negative), so for this
36-byte `NLMSG_ERROR` message no `NlMsg::Error` with a non-negative field is
produced. -/
theorem error_abs_overflow_counterexample :
    parse_nlmsg ([36, 0, 0, 0, 2, 0, 0, 0, 0, 0, 0, 0, 0, 0, 0, 0]
      ++ [0, 0, 0, 128] ++ List.replicate 16 0) = .panic := by
  decide

/-- C6 (amended): for every well-formed `NLMSG_ERROR` control message whose
wire error value is not `i32::MIN`, `parse_nlmsg` returns `NlMsg::Error`
whose error field equals the absolute value of the i32 wire value and is
therefore non-negative, regardless of the sign convention the kernel used;
at `i32::MIN` the `abs()` normalization overflows instead. -/
theorem error_abs_normalization (buf : List Nat) (hdr : Nlmsghdr)
    (hok : get_nlmsghdr buf = .ok hdr) (hty : hdr.nlmsg_type = 2)
    (hsz : ¬(hdr.nlmsg_len > buf.length ∨ hdr.nlmsg_len < 16 + 20))
    (hmin : readI32 buf 16 ≠ -2147483648) :
    parse_nlmsg buf
      = .ok (hdr, .error { error := abs (readI32 buf 16), msg := readNlmsghdrAt buf 20 }) ∧
    0 ≤ abs (readI32 buf 16) := by
  refine ⟨?_, abs_nonneg _⟩
  unfold parse_nlmsg
  rw [hok]
  simp only [hty]
  rw [if_pos (by decide : (2 : Nat) < NLMSG_MIN_TYPE)]
  simp only [if_neg hsz, if_neg hmin]

/-- C6 witness: on the 36-byte error message `errNeg2Buf` carrying the wire
value −2, parsing yields `NlMsg::Error` with the non-negative normalized
value. -/
theorem error_abs_normalization_witness :
    parse_nlmsg errNeg2Buf
      = .ok (readNlmsghdrAt errNeg2Buf 0,
        .error { error := abs (readI32 errNeg2Buf 16),
                 msg := readNlmsghdrAt errNeg2Buf 20 }) ∧
    0 ≤ abs (readI32 errNeg2Buf 16) :=
  error_abs_normalization errNeg2Buf (readNlmsghdrAt errNeg2Buf 0)
    (by decide) (by decide) (by decide) (by decide)

/-- C9: for every `Verdict` variant other than `Reject`, `to_expr` builds an
immediate expression whose destination register is the verdict register and
whose verdict field is that variant's numeric code (as a `u32`), with the
target chain name present exactly when the variant is `Jump` or `Goto`; each
variant's code is the corresponding libc/nftables constant; and `Reject`
alone produces the distinct reject expression carrying
`NFT_REJECT_ICMPX_UNREACH` and the `NFT_REJECT_ICMPX_HOST_UNREACH` code
byte, never an immediate expression. -/
theorem verdict_to_expr_encoding :
    (∀ v : Verdict, v ≠ .reject →
      ∃ k, Verdict.immediate_const v = some k ∧
        Verdict.to_expr v
          = .immediate { dreg := NFT_REG_VERDICT, chain := Verdict.chainName v
                         verdict := i32AsU32 k }) ∧
    (∀ (v : Verdict) (c : String),
      Verdict.chainName v = some c ↔ (v = .jump c ∨ v = .goto c)) ∧
    Verdict.immediate_const .drop = some NF_DROP ∧
    Verdict.immediate_const .accept = some NF_ACCEPT ∧
    Verdict.immediate_const .queue = some NF_QUEUE ∧
    Verdict.immediate_const .cont = some NFT_CONTINUE ∧
    Verdict.immediate_const .brk = some NFT_BREAK ∧
    (∀ c, Verdict.immediate_const (.jump c) = some NFT_JUMP) ∧
    (∀ c, Verdict.immediate_const (.goto c) = some NFT_GOTO) ∧
    Verdict.immediate_const .ret = some NFT_RETURN ∧
    Verdict.immediate_const .reject = none ∧
    Verdict.to_expr .reject
      = .reject { rejectType := NFT_REJECT_ICMPX_UNREACH
                  icmpCode := NFT_REJECT_ICMPX_HOST_UNREACH } ∧
    (∀ e, Verdict.to_expr .reject ≠ .immediate e) := by
  refine ⟨fun v hv => ?_, fun v c => ?_, rfl, rfl, rfl, rfl, rfl, fun c => rfl,
    fun c => rfl, rfl, rfl, rfl, fun e => by simp [Verdict.to_expr, Verdict.immediate_const]⟩
  · cases v <;> first
      | exact absurd rfl hv
      | exact ⟨_, rfl, rfl⟩
  · cases v <;> simp [Verdict.chainName]

/-- C9 witness: the `Drop` variant instantiates the immediate path — its
code is `NF_DROP` = 0 and no chain attribute is written. -/
theorem verdict_to_expr_encoding_witness :
    ∃ k, Verdict.immediate_const .drop = some k ∧
      Verdict.to_expr .drop
        = .immediate { dreg := NFT_REG_VERDICT, chain := Verdict.chainName .drop
                       verdict := i32AsU32 k } :=
  verdict_to_expr_encoding.1 .drop (by decide)

/-- C10: `Rule::sport` and `Rule::dport` both call
`match_port(port, protocol, false)`, hence append exactly the same expression
sequence: a `Meta(L4Proto)` load, an equality comparison against the
protocol number, a transport-header payload load of the *destination*-port
field, and an equality comparison against the big-endian port bytes.  No
expression appended by `sport` loads a source-port field. -/
theorem sport_dport_same_sequence (r : BuilderRule) (port : Nat) (p : Protocol) :
    BuilderRule.sport r port p = BuilderRule.dport r port p ∧
    BuilderRule.sport r port p = BuilderRule.match_port r port p false ∧
    (BuilderRule.sport r port p).exprs
      = r.exprs ++ [RuleExpr.meta .l4proto,
          RuleExpr.cmp .eq [match p with | .tcp => IPPROTO_TCP | .udp => IPPROTO_UDP],
          RuleExpr.payloadTransport
            (match p with | .tcp => .tcpDport | .udp => .udpDport),
          RuleExpr.cmp .eq (u16be port)] ∧
    (∀ f : TransportField,
      RuleExpr.payloadTransport f ∈ ((BuilderRule.sport r port p).exprs.drop r.exprs.length) →
        f = .tcpDport ∨ f = .udpDport) := by
  have hseq : (BuilderRule.sport r port p).exprs
      = r.exprs ++ [RuleExpr.meta .l4proto,
          RuleExpr.cmp .eq [match p with | .tcp => IPPROTO_TCP | .udp => IPPROTO_UDP],
          RuleExpr.payloadTransport
            (match p with | .tcp => .tcpDport | .udp => .udpDport),
          RuleExpr.cmp .eq (u16be port)] := by
    cases p <;>
      simp [BuilderRule.sport, BuilderRule.match_port, BuilderRule.protocol,
        BuilderRule.add_expr]
  refine ⟨rfl, rfl, hseq, fun f hf => ?_⟩
  rw [hseq, List.drop_left' rfl] at hf
  cases p <;> simp_all

/-- C10 witness: instantiated for an empty rule, TCP and port 22: `sport`
equals `dport`, and the destination-port selector in the appended sequence
satisfies the no-source-port property. -/
theorem sport_dport_same_sequence_witness :
    BuilderRule.sport ⟨[]⟩ 22 .tcp = BuilderRule.dport ⟨[]⟩ 22 .tcp ∧
    (TransportField.tcpDport = TransportField.tcpDport ∨
      TransportField.tcpDport = TransportField.udpDport) :=
  ⟨(sport_dport_same_sequence ⟨[]⟩ 22 .tcp).1,
    (sport_dport_same_sequence ⟨[]⟩ 22 .tcp).2.2.2 .tcpDport (by decide)⟩

end Rustables
